import Mathlib

/-!
full-stack-lab: the request handlers of `server.js`.

A shallow embedding of the Express application in `src/server.js` together with the
Mongoose schema of `src/models/movies.js`.

* JavaScript values are the JSON-like values that a parsed form or JSON object body and a
  session can hold (no arrays, no floating point numbers).
* A handler is a computation over a context holding the request, the response being built
  and the database; a thrown error keeps the effects made before the throw.
* Library behaviour the repository relies on but does not define (bcrypt, the casters and
  the id generator of the database driver) is a parameter of the development.
-/

namespace FullStackLab

/-! ## JavaScript values -/

/-- JavaScript values that reach the handlers. -/
inductive JsVal where
  | undefined
  | null
  | bool (b : Bool)
  | num (n : Int)
  | str (s : String)
  | obj (props : List (String × JsVal))

/-- A thrown JavaScript error, by constructor name and message. -/
structure JsError where
  name : String
  message : String

/-- The truthiness test of `if (v)`. -/
def JsVal.truthy : JsVal → Bool
  | .undefined => false
  | .null => false
  | .bool b => b
  | .num n => n != 0
  | .str s => s != ""
  | .obj _ => true

/-- The nullish test `v == null`. -/
def JsVal.nullish : JsVal → Bool
  | .undefined => true
  | .null => true
  | _ => false

/-- The error of reading a property of undefined or null. -/
def readTypeError (k : String) : JsError :=
  ⟨"TypeError", "Cannot read properties of undefined (reading " ++ k ++ ")"⟩

/-- The error of writing a property of undefined or null. -/
def writeTypeError (k : String) : JsError :=
  ⟨"TypeError", "Cannot set properties of undefined (setting " ++ k ++ ")"⟩

/-- The error of evaluating an identifier that no scope binds. -/
def referenceError (x : String) : JsError :=
  ⟨"ReferenceError", x ++ " is not defined"⟩

/-- Own data property lookup in a property list. -/
def lookupProp : List (String × JsVal) → String → JsVal
  | [], _ => .undefined
  | (k1, v) :: ps, k => if k1 = k then v else lookupProp ps k

/-- Property assignment in a property list: overwrite in place, or add at the end. -/
def assignProp : List (String × JsVal) → String → JsVal → List (String × JsVal)
  | [], k, x => [(k, x)]
  | (k1, v) :: ps, k, x => if k1 = k then (k1, x) :: ps else (k1, v) :: assignProp ps k x

/-- The member read `v.k`: throws on undefined and null, finds nothing on other primitives
(none of the keys the handlers read is a built-in property of a primitive wrapper). -/
def JsVal.getProp (v : JsVal) (k : String) : Except JsError JsVal :=
  match v with
  | .undefined => .error (readTypeError k)
  | .null => .error (readTypeError k)
  | .obj ps => .ok (lookupProp ps k)
  | _ => .ok .undefined

/-- The member write `v.k = x`, giving the value `v` denotes afterwards: throws on
undefined and null and is silently dropped on other primitives (the module is not in
strict mode). -/
def JsVal.setProp (v : JsVal) (k : String) (x : JsVal) : Except JsError JsVal :=
  match v with
  | .undefined => .error (writeTypeError k)
  | .null => .error (writeTypeError k)
  | .obj ps => .ok (.obj (assignProp ps k x))
  | w => .ok w

/-! ## Requests, responses, database -/

/-- The two properties of `req.session` that `server.js` reads or writes. -/
structure Session where
  user : JsVal
  message : JsVal

/-- The parts of `req` the handlers use: the session, the parsed body and the route
parameter `movieId`. -/
structure Req where
  session : Session
  body : JsVal
  movieId : String

/-- The read `req.sessions`: an Express request carries no property of that name and no
middleware of `server.js` defines one. -/
def Req.sessions (_r : Req) : JsVal := .undefined

/-- The value of `res.locals`. -/
structure Locals where
  user : JsVal
  message : JsVal

/-- An argument handed to a view. -/
inductive ViewArg where
  | val (v : JsVal)
  | list (vs : List JsVal)

/-- A response written through `res`. -/
inductive Reply where
  | redirect (url : String)
  | send (body : JsVal)
  | render (view : String) (args : List (String × ViewArg))

/-- The response object: `res.locals` and the replies written so far, oldest first. -/
structure Res where
  locals : Locals
  sent : List Reply

/-- A stored movie: the paths of `movieSchema` and the document id, none being the id
null. -/
structure Movie where
  _id : Option String
  name : JsVal
  year : JsVal
  rating : JsVal
  createdBy : JsVal

/-- The database: the two collections, the number of ids generated so far, and the log of
the model methods called, oldest first. -/
structure World where
  movies : List Movie
  users : List JsVal
  idSeed : Nat
  calls : List String

/-- Everything a handler can read or change. -/
structure Ctx where
  req : Req
  res : Res
  db : World
  nextCalls : Nat

/-- A handler body: it ends normally or by a thrown error, and in both cases leaves the
context as changed up to that point. -/
def Js (α : Type) : Type := Ctx → Except JsError α × Ctx

/-- Sequencing of statements. -/
def Js.bind {α β : Type} (x : Js α) (f : α → Js β) : Js β := fun c =>
  match x c with
  | (.ok a, c1) => f a c1
  | (.error e, c1) => (.error e, c1)

/-- The statement `try x catch (e) h`. -/
def Js.tryCatch {α : Type} (x : Js α) (h : JsError → Js α) : Js α := fun c =>
  match x c with
  | (.ok a, c1) => (.ok a, c1)
  | (.error e, c1) => h e c1

instance : Monad Js where
  pure a := fun c => (.ok a, c)
  bind := Js.bind

instance : MonadExcept JsError Js where
  throw e := fun c => (.error e, c)
  tryCatch := Js.tryCatch

/-- The current context. -/
def getCtx : Js Ctx := fun c => (.ok c, c)

/-- A change of the context. -/
def modifyCtx (f : Ctx → Ctx) : Js Unit := fun c => (.ok (), f c)

/-- An expression that may throw. -/
def liftE {α : Type} (r : Except JsError α) : Js α := fun c => (r, c)

/-- A database call: it may reject and may change the database only. -/
def liftDb {α : Type} (op : World → Except JsError α × World) : Js α := fun c =>
  match op c.db with
  | (r, w) => (r, { c with db := w })

/-- The read `req.body.k`. -/
def readBody (k : String) : Js JsVal := do
  let c ← getCtx
  liftE (c.req.body.getProp k)

/-- The write `req.body.k = x`. -/
def writeBody (k : String) (x : JsVal) : Js Unit := do
  let c ← getCtx
  let b ← liftE (c.req.body.setProp k x)
  modifyCtx fun c => { c with req := { c.req with body := b } }

/-- The write `req.session.message = x`. -/
def setSessionMessage (x : JsVal) : Js Unit :=
  modifyCtx fun c =>
    { c with req := { c.req with session := { c.req.session with message := x } } }

/-- The call `next()`. -/
def next : Js Unit :=
  modifyCtx fun c => { c with nextCalls := c.nextCalls + 1 }

/-- A reply written through `res`. -/
def reply (r : Reply) : Js Unit :=
  modifyCtx fun c => { c with res := { c.res with sent := c.res.sent ++ [r] } }

/-- The call `res.redirect(url)`. -/
def redirect (url : String) : Js Unit := reply (.redirect url)

/-- The call `res.send(body)`. -/
def send (body : JsVal) : Js Unit := reply (.send body)

/-- The call `res.render(view, args)`. -/
def render (view : String) (args : List (String × ViewArg)) : Js Unit := reply (.render view args)

/-! ## Middleware of `server.js` -/

/-- The middleware of lines 53-56: `res.locals.user = req.session.user; next()`. -/
def exposeUser : Js Unit := do
  let c ← getCtx
  modifyCtx fun c1 =>
    { c1 with res := { c1.res with locals := { c1.res.locals with user := c.req.session.user } } }
  next

/-- The flash-message middleware of lines 58-64. -/
def flashMessage : Js Unit := do
  let c ← getCtx
  if c.req.session.message.truthy then
    modifyCtx fun c1 =>
      { c1 with res := { c1.res with locals := { c1.res.locals with message := c.req.session.message } } }
    -- req.sessions.message = null
    let _ ← liftE (c.req.sessions.setProp "message" .null)
  next

/-! ## The database driver and the `Movies` model -/

/-- Library behaviour behind the model calls that the repository does not define: the
casters of the schema types (none is a cast failure), the casting of an update document
into the change it makes to a stored movie, and the generator of document ids. -/
structure Driver where
  castString : JsVal → Option JsVal
  castNumber : JsVal → Option JsVal
  castObjectId : JsVal → Option String
  castUpdate : JsVal → Except JsError (Movie → Movie)
  newObjectId : Nat → String

/-- The schema types `movieSchema` uses. -/
inductive SchemaType where
  | String
  | Number
  | ObjectId

/-- A path of a schema: its name, its type and whether it is required. -/
structure SchemaPath where
  name : String
  type : SchemaType
  required : Bool

/-- The schema of `models/movies.js`, lines 3-8. -/
def movieSchema : List SchemaPath :=
  [ { name := "name", type := .String, required := true },
    { name := "year", type := .Number, required := true },
    { name := "rating", type := .Number, required := true },
    { name := "createdBy", type := .ObjectId, required := false } ]

/-- The caster of a schema type; a cast ObjectId is held as its string form. -/
def casterOf (d : Driver) : SchemaType → JsVal → Option JsVal
  | .String => d.castString
  | .Number => d.castNumber
  | .ObjectId => fun v => (d.castObjectId v).map JsVal.str

/-- Casting of the value of a path: undefined and null are kept as they are. -/
def castPath (cast : JsVal → Option JsVal) (v : JsVal) : Option JsVal :=
  if v.nullish then some v else cast v

/-- Casting of the value of a path of type ObjectId. -/
def castRef (d : Driver) (v : JsVal) : Option JsVal :=
  castPath (casterOf d .ObjectId) v

/-- The required validator of a schema type on a cast value: a non-empty string, a number,
an id. -/
def requiredOk : SchemaType → JsVal → Bool
  | .String, .str s => s != ""
  | .Number, .num _ => true
  | .ObjectId, .str _ => true
  | _, _ => false

/-- A path passes on a value that casts and, if the path is required, is present once
cast. -/
def pathOk (d : Driver) (p : SchemaPath) (v : JsVal) : Bool :=
  match castPath (casterOf d p.type) v with
  | none => false
  | some x => !p.required || requiredOk p.type x

/-- The value a constructor argument gives to a path: an own property of an object, and
nothing otherwise. -/
def fieldOf (doc : JsVal) (k : String) : JsVal :=
  match doc with
  | .obj ps => lookupProp ps k
  | _ => .undefined

/-- The names of the paths of `movieSchema` on which `doc` fails. -/
def schemaErrors (d : Driver) (doc : JsVal) : List String :=
  (movieSchema.filter (fun p => !pathOk d p (fieldOf doc p.name))).map (fun p => p.name)

/-- The check that `doc` satisfies `movieSchema`. -/
def satisfiesSchema (d : Driver) (doc : JsVal) : Bool :=
  (schemaErrors d doc).isEmpty

/-- The error of a document that fails the schema. -/
def validationError (paths : List String) : JsError :=
  ⟨"ValidationError", "Movie validation failed: " ++ ", ".intercalate paths⟩

/-- The error of an id that does not cast to ObjectId. -/
def castError (path : String) : JsError :=
  ⟨"CastError", "Cast to ObjectId failed at path " ++ path⟩

/-- The error of an insert whose id is already in the collection. -/
def duplicateKeyError : JsError :=
  ⟨"MongoServerError", "E11000 duplicate key error"⟩

/-- The error of constructing a document from a primitive. -/
def objectParameterError : JsError :=
  ⟨"ObjectParameterError", "Parameter obj to Document() must be an object"⟩

/-- The error of saving a document whose id is null. -/
def missingIdError : JsError :=
  ⟨"MongooseError", "document must have an _id before saving"⟩

/-- The error of calling a member that is not a function. -/
def notCallableError (k : String) : JsError :=
  ⟨"TypeError", k ++ " is not a function"⟩

/-- The cast value of a path of a document that satisfies the schema. -/
def castOr (cast : JsVal → Option JsVal) (v : JsVal) : JsVal :=
  (castPath cast v).getD .undefined

/-- A model call as logged. -/
def logCall (name : String) (w : World) : World :=
  { w with calls := w.calls ++ [name] }

/-- The own property test of a property list. -/
def hasProp : List (String × JsVal) → String → Bool
  | [], _ => false
  | (k1, _) :: ps, k => k1 == k || hasProp ps k

/-- The `_id` a constructor argument carries, none when it has no such property. -/
def givenId (doc : JsVal) : Option JsVal :=
  match doc with
  | .obj ps => if hasProp ps "_id" then some (lookupProp ps "_id") else none
  | _ => none

/-- The id under which `Movies.create` inserts `doc`: the next generated id when `doc`
carries no `_id`, the id null when its `_id` is null, the cast of its `_id` otherwise; and
no id at all (the outer none) when its `_id` is undefined or does not cast. -/
def recordId (d : Driver) (doc : JsVal) (w : World) : Option (Option String) :=
  match givenId doc with
  | none => some (some (d.newObjectId w.idSeed))
  | some .undefined => none
  | some .null => some none
  | some given => (d.castObjectId given).map some

/-- The validation failure of the `_id` a document carries: it does not cast. -/
def idErrors (d : Driver) (doc : JsVal) : List String :=
  match givenId doc with
  | none => []
  | some given =>
    if given.nullish then []
    else
      match d.castObjectId given with
      | none => ["_id"]
      | some _ => []

/-- The insert of a validated document under the id `id`. -/
def insertMovie (d : Driver) (doc : JsVal) (id : Option String) (w : World) :
    Except JsError Movie × World :=
  if w.movies.any (fun m => m._id == id) then (.error duplicateKeyError, w)
  else
    let m : Movie :=
      { _id := id
        name := castOr (casterOf d .String) (fieldOf doc "name")
        year := castOr (casterOf d .Number) (fieldOf doc "year")
        rating := castOr (casterOf d .Number) (fieldOf doc "rating")
        createdBy := castOr (casterOf d .ObjectId) (fieldOf doc "createdBy") }
    (.ok m, { w with movies := w.movies ++ [m] })

/-- The call `Movies.create(doc)`: construct, validate against `movieSchema`, insert. Paths
outside the schema are dropped. An id is generated when `doc` carries no `_id`; a document
whose `_id` is undefined is valid but cannot be saved. -/
def Movies.create (d : Driver) (doc : JsVal) (w0 : World) : Except JsError Movie × World :=
  let w := logCall "Movies.create" w0
  match doc with
  | .bool _ => (.error objectParameterError, w)
  | .num _ => (.error objectParameterError, w)
  | .str _ => (.error objectParameterError, w)
  | _ =>
    let w1 := if (givenId doc).isNone then { w with idSeed := w.idSeed + 1 } else w
    if (schemaErrors d doc ++ idErrors d doc).isEmpty then
      match recordId d doc w with
      | some id => insertMovie d doc id w1
      | none => (.error missingIdError, w1)
    else (.error (validationError (schemaErrors d doc ++ idErrors d doc)), w1)

/-- The call `Movies.find()`. -/
def Movies.find (w0 : World) : Except JsError (List Movie) × World :=
  let w := logCall "Movies.find" w0
  (.ok w.movies, w)

/-- The call `Movies.findById(id)`; none is the null result. -/
def Movies.findById (d : Driver) (id : String) (w0 : World) :
    Except JsError (Option Movie) × World :=
  let w := logCall "Movies.findById" w0
  match d.castObjectId (.str id) with
  | none => (.error (castError "_id"), w)
  | some key => (.ok (w.movies.find? (fun m => m._id == some key)), w)

/-- The stored movies without the first one whose id is `key`. -/
def removeById (key : Option String) : List Movie → List Movie
  | [] => []
  | m :: ms => if m._id == key then ms else m :: removeById key ms

/-- The stored movies with the first one whose id is `key` replaced by `n`. -/
def replaceById (key : Option String) (n : Movie) : List Movie → List Movie
  | [] => []
  | m :: ms => if m._id == key then n :: ms else m :: replaceById key n ms

/-- The call `Movies.findByIdAndDelete(id)`; none is the null result. -/
def Movies.findByIdAndDelete (d : Driver) (id : String) (w0 : World) :
    Except JsError (Option Movie) × World :=
  let w := logCall "Movies.findByIdAndDelete" w0
  match d.castObjectId (.str id) with
  | none => (.error (castError "_id"), w)
  | some key =>
    match w.movies.find? (fun m => m._id == some key) with
    | none => (.ok none, w)
    | some m => (.ok (some m), { w with movies := removeById (some key) w.movies })

/-- The error of an update that would change the id of a document. -/
def immutableIdError : JsError :=
  ⟨"MongoServerError", "Performing an update on the path _id would modify the immutable field _id"⟩

/-- The call `Movies.findByIdAndUpdate(id, update, \x7b new: true \x7d)`; none is the null
result, and the document returned is the updated one. -/
def Movies.findByIdAndUpdate (d : Driver) (id : String) (update : JsVal) (w0 : World) :
    Except JsError (Option Movie) × World :=
  let w := logCall "Movies.findByIdAndUpdate" w0
  match d.castObjectId (.str id) with
  | none => (.error (castError "_id"), w)
  | some key =>
    match d.castUpdate update with
    | .error e => (.error e, w)
    | .ok change =>
      match w.movies.find? (fun m => m._id == some key) with
      | none => (.ok none, w)
      | some m =>
        if (change m)._id == m._id then
          (.ok (some (change m)),
            { w with movies := replaceById (some key) (change m) w.movies })
        else (.error immutableIdError, w)

/-- The call `doc.save()` on a document loaded from the collection. -/
def Movies.save (m : Movie) (w0 : World) : Except JsError Movie × World :=
  let w := logCall "Movies.save" w0
  (.ok m, { w with movies := replaceById m._id m w.movies })

/-- The id of a document as a plain value. -/
def idToJs : Option String → JsVal
  | none => .null
  | some id => .str id

/-- A property read on a loaded document: the document exposes its id and the paths of
`movieSchema`, and nothing else. -/
def Movie.get (m : Movie) (k : String) : JsVal :=
  if k = "_id" then idToJs m._id
  else if k = "name" then m.name
  else if k = "year" then m.year
  else if k = "rating" then m.rating
  else if k = "createdBy" then m.createdBy
  else .undefined

/-- The member read `doc.k` on the result of a find: null throws. -/
def docProp (r : Option Movie) (k : String) : Except JsError JsVal :=
  match r with
  | none => .error (readTypeError k)
  | some m => .ok (m.get k)

/-- A document as a plain value, as `res.send` and the views receive it. -/
def Movie.toJs (m : Movie) : JsVal :=
  .obj [("_id", idToJs m._id), ("name", m.name), ("year", m.year), ("rating", m.rating),
    ("createdBy", m.createdBy)]

/-- The result of a find as a plain value. -/
def docToJs : Option Movie → JsVal
  | none => .null
  | some m => m.toJs

/-- The method call `recv.k(..)` on a plain value: the member read throws on undefined and
null, and what it finds on a plain value is not a function. -/
def callMember (recv : JsVal) (k : String) : Except JsError JsVal :=
  match recv.getProp k with
  | .error e => .error e
  | .ok _ => .error (notCallableError k)

/-! ## The scope of `server.js` -/

/-- The two methods the handlers call on the identifier `User`; they act on the database
only. -/
structure UserModel where
  create : JsVal → World → Except JsError JsVal × World
  findOne : JsVal → World → Except JsError JsVal × World

/-- The two functions of the bcrypt library the handlers call. -/
structure Bcrypt where
  hashSync : JsVal → Nat → Except JsError String
  compare : JsVal → JsVal → Except JsError Bool

/-- What the free identifiers of the handlers denote: the bcrypt library, the database
driver behind `Movies`, and the binding of `User`, if there is one. -/
structure Env where
  bcrypt : Bcrypt
  driver : Driver
  User : Option UserModel

/-- The scope `server.js` sets up: line 30 binds the model of `./models/users` to the name
`Users`, and nothing binds `User`. -/
def serverScope (b : Bcrypt) (d : Driver) : Env :=
  { bcrypt := b, driver := d, User := none }

/-- The evaluation of an identifier. -/
def resolve {α : Type} (binding : Option α) (x : String) : Js α :=
  match binding with
  | some a => pure a
  | none => throw (referenceError x)

/-! ## Route handlers of `server.js` -/

/-- The handler of `GET /` (lines 72-74). -/
def getHome : Js Unit := render "home.ejs" []

/-- The handler of `GET /auth/sign-up` (line 78). -/
def getSignUp : Js Unit := render "auth/sign-up.ejs" []

/-- The handler of `POST /auth/sign-up` (lines 82-92). -/
def postSignUp (env : Env) : Js Unit := do
  let hash ← liftE (env.bcrypt.hashSync (← readBody "password") 10)
  writeBody "password" (.str hash)
  let User ← resolve env.User "User"
  let _newUser ← liftDb (User.create (← getCtx).req.body)
  redirect "/"

/-- The handler of `GET /auth/sign-in` (lines 95-97). -/
def getSignIn : Js Unit := render "auth/sign-in.ejs" []

/-- The handler of `POST /auth/sign-in` (lines 99-111). -/
def postSignIn (env : Env) : Js Unit := do
  let User ← resolve env.User "User"
  let userFromDatabase ← liftDb (User.findOne (.obj [("username", ← readBody "username")]))
  let submitted ← readBody "password"
  let stored ← liftE (userFromDatabase.getProp "password")
  let passwordsMatch ← liftE (env.bcrypt.compare submitted stored)
  if passwordsMatch then
    redirect "/"
  else
    send (.str "Login Failed")

/-- The handler of `GET /movies` (lines 114-123). -/
def getMovies : Js Unit :=
  tryCatch
    (do
      let movies ← liftDb Movies.find
      render "movies.ejs" [("movies", .list (movies.map Movie.toJs))])
    (fun error => render "error.ejs" [("error", .val (.str error.message))])

/-- The handler of `GET /new-movie` (lines 126-128). -/
def getNewMovie : Js Unit := render "new.ejs" []

/-- Modelled from the spec: the users collection of `./models/users`, which is not among the
sources, holds user documents with an identifier. This is the stored user a reference
points to, null when there is none. -/
def userById (users : List JsVal) (ref : JsVal) : JsVal :=
  match ref with
  | .str id =>
    match users.find? (fun u => match fieldOf u "_id" with
                                | .str k => k == id
                                | _ => false) with
    | some u => u
    | none => .null
  | other => other

/-- The query `Movies.findById(id).populate("createdBy")`: the owner reference of the movie
found is replaced by the user it points to. -/
def findByIdPopulated (d : Driver) (id : String) (w0 : World) :
    Except JsError (Option Movie) × World :=
  match Movies.findById d id w0 with
  | (.ok (some m), w) => (.ok (some { m with createdBy := userById w.users m.createdBy }), w)
  | r => r

/-- The handler of `GET /movies/:movieId` (lines 130-140). -/
def getMovie (env : Env) : Js Unit :=
  tryCatch
    (do
      let movie ← liftDb (findByIdPopulated env.driver (← getCtx).req.movieId)
      render "show.ejs" [("movie", .val (docToJs movie))])
    (fun error => render "error.ejs" [("error", .val (.str error.message))])

/-- The handler of `POST /movies` (lines 143-160). -/
def postMovies (env : Env) : Js Unit := do
  if (← getCtx).req.session.user.truthy then
    tryCatch
      (do
        writeBody "createdBy" (← liftE ((← getCtx).req.session.user.getProp "userId"))
        let _movie ← liftDb (Movies.create env.driver (← getCtx).req.body)
        setSessionMessage (.str "Movie successfully created.")
        redirect "/movies")
      (fun error => do
        setSessionMessage (.str error.message)
        redirect "/movies")
  else
    redirect "/auth/sign-in"

/-- The handler of `DELETE /movies/:movieId` (lines 163-174). -/
def deleteMovie (env : Env) : Js Unit := do
  if (← getCtx).req.session.user.truthy then
    tryCatch
      (do
        let deletedMovie ← liftDb (Movies.findByIdAndDelete env.driver (← getCtx).req.movieId)
        send (docToJs deletedMovie))
      (fun error => render "error.ejs" [("error", .val (.str error.message))])
  else
    redirect "/auth/sign-in"

/-- The handler of `PUT /movies/:movieId` (lines 177-192). -/
def putMovie (env : Env) : Js Unit := do
  if (← getCtx).req.session.user.truthy then
    tryCatch
      (do
        let c ← getCtx
        let updatedMovie ← liftDb (Movies.findByIdAndUpdate env.driver c.req.movieId c.req.body)
        send (docToJs updatedMovie))
      (fun error => render "error.ejs" [("error", .val (.str error.message))])
  else
    redirect "/auth/sign-in"

/-- The handler of `GET /movies/:movieId/reviews` (lines 195-197). -/
def getReviews : Js Unit := do
  render "newReview.ejs" [("movieId", .val (.str (← getCtx).req.movieId))]

/-- The handler of `POST /movies/:movieId/reviews` (lines 200-219). -/
def postReviews (env : Env) : Js Unit := do
  if (← getCtx).req.session.user.truthy then
    let movieId := (← getCtx).req.movieId
    let movieFromDb ← liftDb (Movies.findById env.driver movieId)
    writeBody "reviewer" (← liftE ((← getCtx).req.session.user.getProp "userId"))
    -- movieFromDb.reviews.push(req.body)
    let reviews ← liftE (docProp movieFromDb "reviews")
    let _ ← liftE (callMember reviews "push")
    -- await movieFromDb.save()
    match movieFromDb with
    | some m => let _ ← liftDb (Movies.save m)
    | none => throw (readTypeError "save")
    redirect ("/movies/" ++ movieId)
  else
    redirect "/auth/sign-in"

/-! ## The application -/

/-- The request methods the routes of `server.js` answer, after method override. -/
inductive Method where
  | GET
  | POST
  | PUT
  | DELETE

/-- A request as it reaches the first middleware defined in `server.js`: its method, the
segments of its path and its parsed body. -/
structure HttpRequest where
  method : Method
  path : List String
  body : JsVal

/-- What the client gets: the reply a handler wrote, the answer of the error handler of
Express to an error thrown in a middleware, no answer after the rejection of an
asynchronous handler, no answer yet, or the answer for an unknown route. -/
inductive Response where
  | reply (r : Reply)
  | serverError (e : JsError)
  | unanswered (e : JsError)
  | pending
  | notFound

/-- What persists between the requests of one session: its session object and the
database. -/
structure AppState where
  session : Session
  db : World

/-- The router mounted under `/auth` (line 65); `./controllers/authControllers` is not part
of the sources at hand. It answers or passes the request on (none). -/
def AuthRouter : Type := HttpRequest → Ctx → Option Response × Ctx

/-- The router that passes every request on. -/
def passRouter : AuthRouter := fun _ c => (none, c)

/-- The route table of `server.js` in registration order: the handler of a request and the
value of its `movieId` parameter. -/
def route (env : Env) (r : HttpRequest) : Option (String × Js Unit) :=
  match r.method, r.path with
  | .GET, [] => some ("", getHome)
  | .GET, ["auth", "sign-up"] => some ("", getSignUp)
  | .POST, ["auth", "sign-up"] => some ("", postSignUp env)
  | .GET, ["auth", "sign-in"] => some ("", getSignIn)
  | .POST, ["auth", "sign-in"] => some ("", postSignIn env)
  | .GET, ["movies"] => some ("", getMovies)
  | .GET, ["new-movie"] => some ("", getNewMovie)
  | .GET, ["movies", id] => some (id, getMovie env)
  | .POST, ["movies"] => some ("", postMovies env)
  | .DELETE, ["movies", id] => some (id, deleteMovie env)
  | .PUT, ["movies", id] => some (id, putMovie env)
  | .GET, ["movies", id, "reviews"] => some (id, getReviews)
  | .POST, ["movies", id, "reviews"] => some (id, postReviews env)
  | _, _ => none

/-- The context a request starts with. -/
def startCtx (s : AppState) (r : HttpRequest) : Ctx :=
  { req := { session := s.session, body := r.body, movieId := "" }
    res := { locals := { user := .undefined, message := .undefined }, sent := [] }
    db := s.db
    nextCalls := 0 }

/-- What persists of a context when its request is over. -/
def persist (c : Ctx) : AppState :=
  { session := c.req.session, db := c.db }

/-- The response of a request whose route handler has run: the first reply written, or
else the rejection of the handler, which nothing answers. -/
def conclude (out : Except JsError Unit × Ctx) : Response × AppState :=
  match out.2.res.sent with
  | r :: _ => (.reply r, persist out.2)
  | [] =>
    match out.1 with
    | .error e => (.unanswered e, persist out.2)
    | .ok _ => (.pending, persist out.2)

/-- A middleware step: a throw is answered by the error handler of Express, and the chain
goes on only when `next()` was called. -/
def stage (m : Js Unit) (c : Ctx) (k : Ctx → Response × AppState) : Response × AppState :=
  match m c with
  | (.error e, c1) => (.serverError e, persist c1)
  | (.ok _, c1) => if c1.nextCalls = c.nextCalls + 1 then k c1 else (.pending, persist c1)

/-- The routes, reached when the middleware chain has passed the request on. -/
def dispatch (env : Env) (r : HttpRequest) (c : Ctx) : Response × AppState :=
  match route env r with
  | none => (.notFound, persist c)
  | some (id, handler) => conclude (handler { c with req := { c.req with movieId := id } })

/-- The application: the middleware of lines 53-65 in order, then the routes. -/
def app (env : Env) (authRouter : AuthRouter) (s : AppState) (r : HttpRequest) :
    Response × AppState :=
  stage exposeUser (startCtx s r) fun c1 =>
  stage flashMessage c1 fun c2 =>
    match r.path with
    | "auth" :: _ =>
      match authRouter r c2 with
      | (some resp, c3) => (resp, persist c3)
      | (none, c3) => dispatch env r c3
    | _ => dispatch env r c2

/-- The state after a sequence of requests of the session. -/
def runAll (env : Env) (authRouter : AuthRouter) : AppState → List HttpRequest → AppState
  | s, [] => s
  | s, r :: rs => runAll env authRouter (app env authRouter s r).2 rs

/-! ## Notions used to state the properties -/

/-- The document `POST /movies` hands to `Movies.create`: the body with `createdBy`
overwritten by `req.session.user.userId`. -/
def stampedBody (c : Ctx) : Except JsError JsVal :=
  match c.req.session.user.getProp "userId" with
  | .ok uid => c.req.body.setProp "createdBy" uid
  | .error e => .error e

/-- The check that `Movies.create` has an id for `doc` and that no stored movie has that
id. -/
def idAvailable (d : Driver) (doc : JsVal) (w : World) : Bool :=
  match recordId d doc w with
  | none => false
  | some id => !(w.movies.any (fun m => m._id == id))

/-- The stored movie a route parameter names, if any. -/
def namedMovie (d : Driver) (id : String) (w : World) : Option Movie :=
  match d.castObjectId (.str id) with
  | none => none
  | some key => w.movies.find? (fun m => m._id == some key)

/-- The reply `PUT` and `DELETE /movies/:movieId` write for the result of their model call:
the raw result, or the error view with the message of the error. -/
def resultReply (r : Except JsError (Option Movie)) : Reply :=
  match r with
  | .ok doc => .send (docToJs doc)
  | .error e => .render "error.ejs" [("error", .val (.str e.message))]

/-- A handler body that leaves the part `g` of the session as it was, however it ends. -/
def Keeps {α β : Type} (g : Session → β) (x : Js α) : Prop :=
  ∀ c : Ctx, g (x c).2.req.session = g c.req.session

/-- The four routes that ask for a session user. -/
def guarded (r : HttpRequest) : Bool :=
  match r.method, r.path with
  | .POST, ["movies"] => true
  | .PUT, ["movies", _] => true
  | .DELETE, ["movies", _] => true
  | .POST, ["movies", _, "reviews"] => true
  | _, _ => false

/-! ## A sample environment -/

/-- The hexadecimal digits. -/
def hexDigit (ch : Char) : Bool :=
  ch.isDigit || ('a' ≤ ch && ch ≤ 'f') || ('A' ≤ ch && ch ≤ 'F')

/-- The strings of 24 hexadecimal digits, the text form of an ObjectId. -/
def isHex24 (s : String) : Bool :=
  s.data.length == 24 && s.data.all hexDigit

/-- A sample update: the `name` of the update document, when it is a string, replaces the
name of the movie. -/
def sampleUpdate (u : JsVal) : Except JsError (Movie → Movie) :=
  match fieldOf u "name" with
  | .str s => .ok fun m => { m with name := .str s }
  | _ => .ok fun m => m

/-- A sample driver: strings cast to String, integers to Number, strings of 24 hexadecimal
digits to ObjectId, and nothing else casts. -/
def sampleDriver : Driver :=
  { castString := fun v => match v with
      | .str s => some (.str s)
      | _ => none
    castNumber := fun v => match v with
      | .num n => some (.num n)
      | _ => none
    castObjectId := fun v => match v with
      | .str s => if isHex24 s then some s else none
      | _ => none
    castUpdate := sampleUpdate
    newObjectId := fun n => String.mk (List.replicate 23 '0' ++ [Nat.digitChar (n % 10)]) }

/-- A sample bcrypt: the hash of a string is the string behind a marker, and a password
matches the hash made from it. -/
def sampleBcrypt : Bcrypt :=
  { hashSync := fun p _ => match p with
      | .str s => .ok ("$2b$10$" ++ s)
      | _ => .error ⟨"Error", "data and salt arguments required"⟩
    compare := fun p h => match p, h with
      | .str s, .str t => .ok ("$2b$10$" ++ s == t)
      | _, _ => .error ⟨"Error", "data and hash arguments required"⟩ }

/-- The sample environment in the scope of `server.js`. -/
def sampleEnv : Env := serverScope sampleBcrypt sampleDriver

/-- A database holding one movie, owned by the user with id `aaaaaaaaaaaaaaaaaaaaaaaa`. -/
def sampleWorld : World :=
  { movies := [{ _id := some "0123456789abcdef01234567", name := .str "Alien", year := .num 1979,
                 rating := .num 8, createdBy := .str "aaaaaaaaaaaaaaaaaaaaaaaa" }]
    users := []
    idSeed := 0
    calls := [] }

/-- A context whose session has the given user and message. -/
def sampleCtx (user message body : JsVal) (movieId : String) : Ctx :=
  { req := { session := { user := user, message := message }, body := body, movieId := movieId }
    res := { locals := { user := .undefined, message := .undefined }, sent := [] }
    db := sampleWorld
    nextCalls := 0 }

/-- A session user as a sign-in would store it: an object with the identifier of the
user. -/
def signedIn : JsVal :=
  .obj [("userId", .str "bbbbbbbbbbbbbbbbbbbbbbbb")]

/-- A movie form that also carries the `_id` of the movie stored in `sampleWorld`. -/
def duplicateBody : JsVal :=
  .obj [("_id", .str "0123456789abcdef01234567"), ("name", .str "Heat"), ("year", .num 1995),
    ("rating", .num 8)]

/-- A new session over the sample database: no user, no message. -/
def sampleState : AppState :=
  { session := { user := .undefined, message := .undefined }, db := sampleWorld }

/-- A movie form as a body. -/
def sampleBody : JsVal :=
  .obj [("name", .str "Heat"), ("year", .num 1995), ("rating", .num 8)]

/-! ## Running handler bodies -/

@[simp] theorem run_pure {α : Type} (a : α) (c : Ctx) : (pure a : Js α) c = (.ok a, c) := rfl

@[simp] theorem run_bind {α β : Type} (x : Js α) (f : α → Js β) (c : Ctx) :
    (x >>= f) c = Js.bind x f c := rfl

@[simp] theorem run_throw {α : Type} (e : JsError) (c : Ctx) :
    (throw e : Js α) c = (.error e, c) := rfl

@[simp] theorem run_tryCatch {α : Type} (x : Js α) (h : JsError → Js α) (c : Ctx) :
    (tryCatch x h) c = Js.tryCatch x h c := rfl

@[simp] theorem run_getCtx (c : Ctx) : getCtx c = (.ok c, c) := rfl

@[simp] theorem run_modifyCtx (f : Ctx → Ctx) (c : Ctx) : modifyCtx f c = (.ok (), f c) := rfl

@[simp] theorem run_liftE {α : Type} (r : Except JsError α) (c : Ctx) : liftE r c = (r, c) := rfl

@[simp] theorem run_liftDb {α : Type} (op : World → Except JsError α × World) (c : Ctx) :
    liftDb op c = ((op c.db).1, { c with db := (op c.db).2 }) := rfl

@[simp] theorem run_reply (r : Reply) (c : Ctx) :
    reply r c = (.ok (), { c with res := { c.res with sent := c.res.sent ++ [r] } }) := rfl

@[simp] theorem run_next (c : Ctx) :
    next c = (.ok (), { c with nextCalls := c.nextCalls + 1 }) := rfl

@[simp] theorem run_setSessionMessage (x : JsVal) (c : Ctx) :
    setSessionMessage x c =
      (.ok (), { c with req := { c.req with session := { c.req.session with message := x } } }) :=
  rfl

/-! ## Values and property lists -/

theorem lookupProp_assignProp (ps : List (String × JsVal)) (k : String) (x : JsVal) :
    lookupProp (assignProp ps k x) k = x := by
  induction ps with
  | nil => simp [assignProp, lookupProp]
  | cons p ps ih =>
    obtain ⟨k1, v⟩ := p
    by_cases h : k1 = k
    · simp [assignProp, lookupProp, h]
    · simp [assignProp, lookupProp, h, ih]

theorem getProp_of_truthy (v : JsVal) (k : String) (h : v.truthy = true) :
    v.getProp k = .ok (fieldOf v k) := by
  cases v <;> simp_all [JsVal.truthy, JsVal.getProp, fieldOf]

/-! ## Creating a movie -/

/-- C1: `POST /movies` without a truthy session user ends normally, writes exactly the
redirect to `/auth/sign-in`, and leaves the database (the movies and the log of model calls,
so `Movies.create` is not called) and the request (body and session, message included) as
they were. -/
theorem postMovies_unauthenticated (env : Env) (c : Ctx)
    (h : c.req.session.user.truthy = false) :
    (postMovies env c).1 = .ok () ∧
    (postMovies env c).2.res.sent = c.res.sent ++ [.redirect "/auth/sign-in"] ∧
    (postMovies env c).2.db = c.db ∧
    (postMovies env c).2.req = c.req := by
  simp [postMovies, Js.bind, h, redirect]

theorem postMovies_unauthenticated_witness :
    (sampleCtx .undefined .undefined sampleBody "").req.session.user.truthy = false ∧
    (postMovies sampleEnv (sampleCtx .undefined .undefined sampleBody "")).2.res.sent =
      [.redirect "/auth/sign-in"] ∧
    (postMovies sampleEnv (sampleCtx .undefined .undefined sampleBody "")).2.db = sampleWorld :=
  ⟨rfl, (postMovies_unauthenticated sampleEnv (sampleCtx .undefined .undefined sampleBody "") rfl).2.1,
    (postMovies_unauthenticated sampleEnv (sampleCtx .undefined .undefined sampleBody "") rfl).2.2.1⟩

theorem schema_paths (d : Driver) (doc : JsVal) (h : satisfiesSchema d doc = true) :
    ∀ p ∈ movieSchema, pathOk d p (fieldOf doc p.name) = true := by
  unfold satisfiesSchema schemaErrors at h
  rw [List.isEmpty_iff, List.map_eq_nil_iff, List.filter_eq_nil_iff] at h
  intro p hp
  simpa using h p hp

theorem schema_createdBy (d : Driver) (doc : JsVal) (h : satisfiesSchema d doc = true) :
    castRef d (fieldOf doc "createdBy") =
      some (castOr (casterOf d .ObjectId) (fieldOf doc "createdBy")) := by
  have h4 : pathOk d { name := "createdBy", type := .ObjectId, required := false }
      (fieldOf doc "createdBy") = true :=
    schema_paths d doc h _ (by simp [movieSchema])
  unfold pathOk at h4
  unfold castOr castRef
  cases hcr : castPath (casterOf d .ObjectId) (fieldOf doc "createdBy") with
  | none => simp [hcr] at h4
  | some x => simp

theorem insertMovie_fresh (d : Driver) (doc : JsVal) (id : Option String) (w : World)
    (h : (w.movies.any (fun m => m._id == id)) = false) :
    ∃ m : Movie, insertMovie d doc id w = (.ok m, { w with movies := w.movies ++ [m] }) ∧
      m.createdBy = castOr (casterOf d .ObjectId) (fieldOf doc "createdBy") := by
  unfold insertMovie
  rw [h]
  exact ⟨_, rfl, rfl⟩

theorem idErrors_of_recordId (d : Driver) (doc : JsVal) (w : World) (id : Option String)
    (h : recordId d doc w = some id) : idErrors d doc = [] := by
  unfold recordId at h
  unfold idErrors
  cases hg : givenId doc with
  | none => rfl
  | some given =>
    rw [hg] at h
    cases given with
    | undefined => simp at h
    | null => simp [JsVal.nullish]
    | bool b =>
      cases hc : d.castObjectId (.bool b) <;> simp [hc, JsVal.nullish] at h ⊢
    | num n =>
      cases hc : d.castObjectId (.num n) <;> simp [hc, JsVal.nullish] at h ⊢
    | str t =>
      cases hc : d.castObjectId (.str t) <;> simp [hc, JsVal.nullish] at h ⊢
    | obj qs =>
      cases hc : d.castObjectId (.obj qs) <;> simp [hc, JsVal.nullish] at h ⊢

theorem create_accepts (d : Driver) (ps : List (String × JsVal)) (w : World)
    (hs : satisfiesSchema d (.obj ps) = true) (hid : idAvailable d (.obj ps) w = true) :
    ∃ (m : Movie) (w1 : World), Movies.create d (.obj ps) w = (.ok m, w1) ∧
      w1.movies = w.movies ++ [m] ∧
      m.createdBy = castOr (casterOf d .ObjectId) (fieldOf (.obj ps) "createdBy") := by
  unfold idAvailable at hid
  cases hr : recordId d (.obj ps) w with
  | none => simp [hr] at hid
  | some id =>
    simp only [hr] at hid
    have hse : schemaErrors d (.obj ps) = [] := by
      simpa [satisfiesSchema, List.isEmpty_iff] using hs
    have hie := idErrors_of_recordId d (.obj ps) w id hr
    have hr1 : recordId d (.obj ps) (logCall "Movies.create" w) = some id := hr
    have hany : ∀ w2 : World, w2.movies = w.movies →
        (w2.movies.any (fun m => m._id == id)) = false := by
      intro w2 h2
      rw [h2]
      simpa using hid
    unfold Movies.create
    simp only [hse, hie, hr1, List.append_nil, List.isEmpty_nil, if_true]
    obtain ⟨m, hm, hc⟩ := insertMovie_fresh d (.obj ps) id
      (if (givenId (.obj ps)).isNone then
        { logCall "Movies.create" w with idSeed := (logCall "Movies.create" w).idSeed + 1 }
       else logCall "Movies.create" w)
      (hany _ (by split <;> rfl))
    refine ⟨m, _, hm, ?_, hc⟩
    split <;> rfl

theorem schema_needs_object (d : Driver) (doc : JsVal) (h : satisfiesSchema d doc = true) :
    ∃ ps, doc = .obj ps := by
  cases doc with
  | obj ps => exact ⟨ps, rfl⟩
  | _ =>
    have h1 := schema_paths d _ h { name := "name", type := .String, required := true }
      (by simp [movieSchema])
    simp [pathOk, castPath, fieldOf, JsVal.nullish, requiredOk] at h1

/-- C2, as stated, fails: the session user is truthy with an identifier that casts, and
the body has name, year and rating and satisfies the movie schema, also once `createdBy`
is overwritten; but the body carries the `_id` of a stored movie, so the insert of
`Movies.create` is rejected as a duplicate key: the movies are as before, no record is
added, and the session message is the error message. -/
theorem postMovies_duplicate_id :
    (sampleCtx signedIn .undefined duplicateBody "").req.session.user.truthy = true ∧
    satisfiesSchema sampleDriver duplicateBody = true ∧
    (∃ doc, stampedBody (sampleCtx signedIn .undefined duplicateBody "") = .ok doc ∧
      satisfiesSchema sampleDriver doc = true ∧
      idAvailable sampleDriver doc sampleWorld = false) ∧
    (postMovies sampleEnv (sampleCtx signedIn .undefined duplicateBody "")).2.db.movies =
      (sampleCtx signedIn .undefined duplicateBody "").db.movies ∧
    (postMovies sampleEnv
      (sampleCtx signedIn .undefined duplicateBody "")).2.req.session.message =
      .str "E11000 duplicate key error" ∧
    (postMovies sampleEnv (sampleCtx signedIn .undefined duplicateBody "")).2.res.sent =
      [.redirect "/movies"] :=
  ⟨rfl, rfl, ⟨_, rfl, rfl, rfl⟩, rfl, rfl, rfl⟩

/-- C2, amended: when the session user is truthy, the body as the handler passes it to
`Movies.create` (`createdBy` overwritten by `session.user.userId`) satisfies the movie
schema, and the id of the new record (the `_id` the body carries, a generated one
otherwise) is not the id of a stored movie, then `POST /movies` adds exactly one record at
the end of the collection, the `createdBy` of that record is `session.user.userId` in its
ObjectId form (whatever `createdBy` the client sent), the session message becomes
"Movie successfully created." and the handler writes exactly the redirect to `/movies`. -/
theorem postMovies_creates (env : Env) (c : Ctx) (doc : JsVal)
    (huser : c.req.session.user.truthy = true)
    (hdoc : stampedBody c = .ok doc)
    (hschema : satisfiesSchema env.driver doc = true)
    (hid : idAvailable env.driver doc c.db = true) :
    ∃ m : Movie,
      (postMovies env c).2.db.movies = c.db.movies ++ [m] ∧
      castRef env.driver (fieldOf c.req.session.user "userId") = some m.createdBy ∧
      (postMovies env c).2.req.session.message = .str "Movie successfully created." ∧
      (postMovies env c).2.res.sent = c.res.sent ++ [.redirect "/movies"] := by
  have hgp := getProp_of_truthy c.req.session.user "userId" huser
  obtain ⟨ps, rfl⟩ := schema_needs_object env.driver doc hschema
  replace hdoc : c.req.body.setProp "createdBy" (fieldOf c.req.session.user "userId") =
      .ok (.obj ps) := by
    simpa [stampedBody, hgp] using hdoc
  obtain ⟨m, w1, hcreate, hmovies, hby⟩ := create_accepts env.driver ps c.db hschema hid
  have hfield : fieldOf (.obj ps) "createdBy" = fieldOf c.req.session.user "userId" := by
    cases hb : c.req.body with
    | obj qs =>
      rw [hb] at hdoc
      simp only [JsVal.setProp, Except.ok.injEq, JsVal.obj.injEq] at hdoc
      rw [← hdoc]
      simp [fieldOf, lookupProp_assignProp]
    | _ => rw [hb] at hdoc; simp [JsVal.setProp] at hdoc
  refine ⟨m, ?_, ?_, ?_, ?_⟩
  · simp [postMovies, Js.bind, Js.tryCatch, huser, hgp, writeBody, hdoc, hcreate, redirect,
      hmovies]
  · rw [hby, ← hfield]
    exact schema_createdBy env.driver (.obj ps) hschema
  · simp [postMovies, Js.bind, Js.tryCatch, huser, hgp, writeBody, hdoc, hcreate, redirect]
  · simp [postMovies, Js.bind, Js.tryCatch, huser, hgp, writeBody, hdoc, hcreate, redirect]

theorem postMovies_creates_witness :
    (∃ m : Movie,
      (postMovies sampleEnv (sampleCtx signedIn .undefined sampleBody "")).2.db.movies =
        sampleWorld.movies ++ [m] ∧
      castRef sampleDriver (.str "bbbbbbbbbbbbbbbbbbbbbbbb") = some m.createdBy ∧
      (postMovies sampleEnv (sampleCtx signedIn .undefined sampleBody "")).2.req.session.message
        = .str "Movie successfully created." ∧
      (postMovies sampleEnv (sampleCtx signedIn .undefined sampleBody "")).2.res.sent =
        [.redirect "/movies"]) ∧
    (∃ m : Movie,
      (postMovies sampleEnv (sampleCtx signedIn .undefined
        (.obj [("_id", .null), ("name", .str "Heat"), ("year", .num 1995), ("rating", .num 8)])
        "")).2.db.movies = sampleWorld.movies ++ [m] ∧
      castRef sampleDriver (.str "bbbbbbbbbbbbbbbbbbbbbbbb") = some m.createdBy ∧
      (postMovies sampleEnv (sampleCtx signedIn .undefined
        (.obj [("_id", .null), ("name", .str "Heat"), ("year", .num 1995), ("rating", .num 8)])
        "")).2.req.session.message = .str "Movie successfully created." ∧
      (postMovies sampleEnv (sampleCtx signedIn .undefined
        (.obj [("_id", .null), ("name", .str "Heat"), ("year", .num 1995), ("rating", .num 8)])
        "")).2.res.sent = [.redirect "/movies"]) :=
  ⟨postMovies_creates sampleEnv (sampleCtx signedIn .undefined sampleBody "")
      (.obj [("name", .str "Heat"), ("year", .num 1995), ("rating", .num 8),
        ("createdBy", .str "bbbbbbbbbbbbbbbbbbbbbbbb")])
      rfl rfl rfl rfl,
   postMovies_creates sampleEnv
      (sampleCtx signedIn .undefined
        (.obj [("_id", .null), ("name", .str "Heat"), ("year", .num 1995), ("rating", .num 8)])
        "")
      (.obj [("_id", .null), ("name", .str "Heat"), ("year", .num 1995), ("rating", .num 8),
        ("createdBy", .str "bbbbbbbbbbbbbbbbbbbbbbbb")])
      rfl rfl rfl rfl⟩

/-! ## Signing up and signing in -/

/-- C3: in the scope of `server.js`, where `User` is unbound, `POST /auth/sign-in` rejects
with the ReferenceError of `User` on every request, before any lookup or comparison: the
context is unchanged, so neither the redirect to `/` nor "Login Failed" is written. -/
theorem postSignIn_rejects (b : Bcrypt) (d : Driver) (c : Ctx) :
    postSignIn (serverScope b d) c = (.error (referenceError "User"), c) := by
  simp [postSignIn, serverScope, resolve, Js.bind]

/-- C4: in the scope of `server.js`, where `User` is unbound, `POST /auth/sign-up` rejects
on every request: no user is persisted (the database is unchanged) and no reply, so no
redirect to `/`, is written. For a body that is an object whose password bcrypt hashes, the
password of the body has been replaced by the hash of work factor 10 when the handler
rejects with the ReferenceError of `User`. -/
theorem postSignUp_rejects (b : Bcrypt) (d : Driver) (c : Ctx) :
    (∃ e, (postSignUp (serverScope b d) c).1 = .error e) ∧
    (postSignUp (serverScope b d) c).2.db = c.db ∧
    (postSignUp (serverScope b d) c).2.res.sent = c.res.sent ∧
    (∀ (ps : List (String × JsVal)) (hash : String),
      c.req.body = .obj ps → b.hashSync (lookupProp ps "password") 10 = .ok hash →
      postSignUp (serverScope b d) c =
        (.error (referenceError "User"),
          { c with req := { c.req with body := .obj (assignProp ps "password" (.str hash)) } })) := by
  simp only [postSignUp, serverScope, resolve, readBody, writeBody, run_bind, Js.bind,
    run_getCtx, run_liftE, run_throw, run_modifyCtx]
  refine ⟨?_, ?_, ?_, ?_⟩
  case refine_4 =>
    intro ps hash hb hh
    simp [hb, JsVal.getProp, JsVal.setProp, hh]
  all_goals
    cases hp : c.req.body.getProp "password" with
    | error e => simp
    | ok pw =>
      cases hh : b.hashSync pw 10 with
      | error e => simp [hh]
      | ok hash =>
        cases hs : c.req.body.setProp "password" (.str hash) with
        | error e => simp [hh, hs]
        | ok body => simp [hh, hs]

theorem postSignUp_rejects_witness :
    postSignUp sampleEnv (sampleCtx .undefined .undefined
        (.obj [("username", .str "ann"), ("password", .str "secret")]) "") =
      (.error (referenceError "User"),
        { sampleCtx .undefined .undefined
            (.obj [("username", .str "ann"), ("password", .str "secret")]) "" with
          req := { (sampleCtx .undefined .undefined
              (.obj [("username", .str "ann"), ("password", .str "secret")]) "").req with
            body := .obj (assignProp [("username", .str "ann"), ("password", .str "secret")]
              "password" (.str "$2b$10$secret")) } }) :=
  (postSignUp_rejects sampleBcrypt sampleDriver (sampleCtx .undefined .undefined
    (.obj [("username", .str "ann"), ("password", .str "secret")]) "")).2.2.2
    [("username", .str "ann"), ("password", .str "secret")] "$2b$10$secret" rfl rfl

/-! ## Reviews -/

/-- C5: for a truthy session user and a `movieId` that names a stored movie,
`POST /movies/:movieId/reviews` rejects: the loaded document has no `reviews` property
(`movieSchema` defines none), so the call of `push` on it throws. No movie is changed and
no reply, so no redirect, is written. -/
theorem postReviews_rejects (env : Env) (c : Ctx) (m : Movie)
    (huser : c.req.session.user.truthy = true)
    (hm : namedMovie env.driver c.req.movieId c.db = some m) :
    (∃ e, (postReviews env c).1 = .error e) ∧
    (postReviews env c).2.db.movies = c.db.movies ∧
    (postReviews env c).2.res.sent = c.res.sent ∧
    (∀ ps : List (String × JsVal), c.req.body = .obj ps →
      (postReviews env c).1 = .error (readTypeError "push")) := by
  have hgp := getProp_of_truthy c.req.session.user "userId" huser
  unfold namedMovie at hm
  cases hc : env.driver.castObjectId (.str c.req.movieId) with
  | none => simp [hc] at hm
  | some key =>
    simp only [hc] at hm
    simp only [postReviews, writeBody, run_bind, Js.bind, run_getCtx, run_liftE, run_liftDb,
      huser, if_true, Movies.findById, hc, logCall, hm, hgp]
    cases hs : c.req.body.setProp "reviewer" (fieldOf c.req.session.user "userId") with
    | error e =>
      refine ⟨by simp [hs], by simp [hs], by simp [hs], fun ps hb => ?_⟩
      rw [hb] at hs
      simp [JsVal.setProp] at hs
    | ok body => simp [hs, docProp, Movie.get, callMember, JsVal.getProp]

theorem postReviews_rejects_witness :
    (∃ e, (postReviews sampleEnv (sampleCtx (.obj [("userId", .str "aaaaaaaaaaaaaaaaaaaaaaaa")])
      .undefined (.obj [("text", .str "great")]) "0123456789abcdef01234567")).1 = .error e) ∧
    (postReviews sampleEnv (sampleCtx (.obj [("userId", .str "aaaaaaaaaaaaaaaaaaaaaaaa")])
      .undefined (.obj [("text", .str "great")]) "0123456789abcdef01234567")).2.db.movies
      = sampleWorld.movies ∧
    (postReviews sampleEnv (sampleCtx (.obj [("userId", .str "aaaaaaaaaaaaaaaaaaaaaaaa")])
      .undefined (.obj [("text", .str "great")]) "0123456789abcdef01234567")).2.res.sent = [] ∧
    (postReviews sampleEnv (sampleCtx (.obj [("userId", .str "aaaaaaaaaaaaaaaaaaaaaaaa")])
      .undefined (.obj [("text", .str "great")]) "0123456789abcdef01234567")).1
      = .error (readTypeError "push") :=
  have h := postReviews_rejects sampleEnv
    (sampleCtx (.obj [("userId", .str "aaaaaaaaaaaaaaaaaaaaaaaa")]) .undefined
      (.obj [("text", .str "great")]) "0123456789abcdef01234567")
    { _id := some "0123456789abcdef01234567", name := .str "Alien", year := .num 1979,
      rating := .num 8, createdBy := .str "aaaaaaaaaaaaaaaaaaaaaaaa" }
    rfl rfl
  ⟨h.1, h.2.1, h.2.2.1, h.2.2.2 [("text", .str "great")] rfl⟩

/-! ## Updating and deleting a movie -/

theorem run_deleteMovie (env : Env) (c : Ctx) (h : c.req.session.user.truthy = true) :
    deleteMovie env c =
      (.ok (),
        { c with
          db := (Movies.findByIdAndDelete env.driver c.req.movieId c.db).2
          res := { c.res with sent := c.res.sent ++
            [resultReply (Movies.findByIdAndDelete env.driver c.req.movieId c.db).1] } }) := by
  simp only [deleteMovie, run_bind, Js.bind, run_getCtx, h, if_true, run_tryCatch, Js.tryCatch,
    run_liftDb, send, render, run_reply, resultReply]
  cases (Movies.findByIdAndDelete env.driver c.req.movieId c.db).1 <;> rfl

theorem run_putMovie (env : Env) (c : Ctx) (h : c.req.session.user.truthy = true) :
    putMovie env c =
      (.ok (),
        { c with
          db := (Movies.findByIdAndUpdate env.driver c.req.movieId c.req.body c.db).2
          res := { c.res with sent := c.res.sent ++
            [resultReply (Movies.findByIdAndUpdate env.driver c.req.movieId c.req.body c.db).1] } }) := by
  simp only [putMovie, run_bind, Js.bind, run_getCtx, h, if_true, run_tryCatch, Js.tryCatch,
    run_liftDb, send, render, run_reply, resultReply]
  cases (Movies.findByIdAndUpdate env.driver c.req.movieId c.req.body c.db).1 <;> rfl

/-- C6: for a truthy session user and a `movieId` that names no stored movie,
`DELETE /movies/:movieId` ends normally (the handler rejects nothing: a failure of
`findByIdAndDelete` is caught), writes exactly one reply, which is the raw null result or
the error view with the message of the cast error, and leaves the movies as they were. -/
theorem deleteMovie_absent (env : Env) (c : Ctx)
    (huser : c.req.session.user.truthy = true)
    (habsent : namedMovie env.driver c.req.movieId c.db = none) :
    (deleteMovie env c).1 = .ok () ∧
    ((deleteMovie env c).2.res.sent = c.res.sent ++ [.send .null] ∨
     (deleteMovie env c).2.res.sent = c.res.sent ++
       [.render "error.ejs" [("error", .val (.str (castError "_id").message))]]) ∧
    (deleteMovie env c).2.db.movies = c.db.movies := by
  rw [run_deleteMovie env c huser]
  unfold namedMovie at habsent
  unfold Movies.findByIdAndDelete
  cases hc : env.driver.castObjectId (.str c.req.movieId) with
  | none => simp [resultReply, logCall]
  | some key =>
    simp only [hc] at habsent
    simp [logCall, habsent, resultReply, docToJs]

theorem deleteMovie_absent_witness :
    (deleteMovie sampleEnv (sampleCtx (.bool true) .undefined (.obj [])
      "ffffffffffffffffffffffff")).1 = .ok () ∧
    ((deleteMovie sampleEnv (sampleCtx (.bool true) .undefined (.obj [])
      "ffffffffffffffffffffffff")).2.res.sent = [] ++ [.send .null] ∨
     (deleteMovie sampleEnv (sampleCtx (.bool true) .undefined (.obj [])
      "ffffffffffffffffffffffff")).2.res.sent = [] ++
       [.render "error.ejs" [("error", .val (.str (castError "_id").message))]]) ∧
    (deleteMovie sampleEnv (sampleCtx (.bool true) .undefined (.obj [])
      "ffffffffffffffffffffffff")).2.db.movies = sampleWorld.movies :=
  deleteMovie_absent sampleEnv
    (sampleCtx (.bool true) .undefined (.obj []) "ffffffffffffffffffffffff") rfl rfl

/-- C7: without a truthy session user, `PUT` and `DELETE /movies/:movieId` write exactly the
redirect to `/auth/sign-in` and leave the database as it was (movies and log of model
calls, so neither `findByIdAndUpdate` nor `findByIdAndDelete` is called). With a truthy
session user, the database after the handler is the one `findByIdAndUpdate`, respectively
`findByIdAndDelete`, leaves for the addressed id, and the reply is the one for the result
of that call: both are functions of the route parameter, the body and the database alone,
so the session user is never compared with the `createdBy` of the movie. -/
theorem mutation_gate (env : Env) (c : Ctx) :
    (c.req.session.user.truthy = false →
      (putMovie env c).2.res.sent = c.res.sent ++ [.redirect "/auth/sign-in"] ∧
      (putMovie env c).2.db = c.db ∧
      (deleteMovie env c).2.res.sent = c.res.sent ++ [.redirect "/auth/sign-in"] ∧
      (deleteMovie env c).2.db = c.db) ∧
    (c.req.session.user.truthy = true →
      (putMovie env c).2.db =
        (Movies.findByIdAndUpdate env.driver c.req.movieId c.req.body c.db).2 ∧
      (putMovie env c).2.res.sent = c.res.sent ++
        [resultReply (Movies.findByIdAndUpdate env.driver c.req.movieId c.req.body c.db).1] ∧
      (deleteMovie env c).2.db = (Movies.findByIdAndDelete env.driver c.req.movieId c.db).2 ∧
      (deleteMovie env c).2.res.sent = c.res.sent ++
        [resultReply (Movies.findByIdAndDelete env.driver c.req.movieId c.db).1]) := by
  constructor
  · intro h
    simp [putMovie, deleteMovie, Js.bind, h, redirect]
  · intro h
    rw [run_putMovie env c h, run_deleteMovie env c h]
    exact ⟨rfl, rfl, rfl, rfl⟩

theorem mutation_gate_witness :
    ((deleteMovie sampleEnv (sampleCtx .undefined .undefined (.obj [])
        "0123456789abcdef01234567")).2.res.sent = [.redirect "/auth/sign-in"] ∧
     (deleteMovie sampleEnv (sampleCtx .undefined .undefined (.obj [])
        "0123456789abcdef01234567")).2.db = sampleWorld) ∧
    ((deleteMovie sampleEnv (sampleCtx (.obj [("userId", .str "cccccccccccccccccccccccc")])
        .undefined (.obj []) "0123456789abcdef01234567")).2.db =
      (Movies.findByIdAndDelete sampleDriver "0123456789abcdef01234567" sampleWorld).2 ∧
     (Movies.findByIdAndDelete sampleDriver "0123456789abcdef01234567" sampleWorld).2.movies
       = []) :=
  ⟨⟨((mutation_gate sampleEnv (sampleCtx .undefined .undefined (.obj [])
        "0123456789abcdef01234567")).1 rfl).2.2.1,
    ((mutation_gate sampleEnv (sampleCtx .undefined .undefined (.obj [])
        "0123456789abcdef01234567")).1 rfl).2.2.2⟩,
   ⟨((mutation_gate sampleEnv (sampleCtx (.obj [("userId", .str "cccccccccccccccccccccccc")])
        .undefined (.obj []) "0123456789abcdef01234567")).2 rfl).2.2.1, rfl⟩⟩

/-! ## The flash-message middleware -/

theorem run_exposeUser (c : Ctx) :
    exposeUser c =
      (.ok (),
        { c with
          res := { c.res with locals := { c.res.locals with user := c.req.session.user } }
          nextCalls := c.nextCalls + 1 }) := by
  simp [exposeUser, Js.bind]

theorem run_flashMessage_truthy (c : Ctx) (h : c.req.session.message.truthy = true) :
    flashMessage c =
      (.error (writeTypeError "message"),
        { c with
          res := { c.res with locals := { c.res.locals with message := c.req.session.message } } }) := by
  simp [flashMessage, Js.bind, h, Req.sessions, JsVal.setProp]

theorem run_flashMessage_falsy (c : Ctx) (h : c.req.session.message.truthy = false) :
    flashMessage c = (.ok (), { c with nextCalls := c.nextCalls + 1 }) := by
  simp [flashMessage, Js.bind, h]

theorem app_blocked (env : Env) (authRouter : AuthRouter) (s : AppState) (r : HttpRequest)
    (h : s.session.message.truthy = true) :
    app env authRouter s r = (.serverError (writeTypeError "message"), s) := by
  unfold app stage
  rw [run_exposeUser]
  simp only [startCtx, if_true]
  rw [run_flashMessage_truthy _ h]
  rfl

theorem runAll_blocked (env : Env) (authRouter : AuthRouter) (s : AppState) (rs : List HttpRequest)
    (h : s.session.message.truthy = true) : runAll env authRouter s rs = s := by
  induction rs with
  | nil => rfl
  | cons r rs ih => simp [runAll, app_blocked env authRouter s r h, ih]

/-- C8: when the session message is truthy, the flash-message middleware leaves
`req.session.message` at the value it had, sets `res.locals.message` to that value, and
after any sequence of later requests of the session the session message is still that
value. -/
theorem flash_message_persists (env : Env) (authRouter : AuthRouter) (c : Ctx)
    (h : c.req.session.message.truthy = true) :
    (flashMessage c).2.req.session.message = c.req.session.message ∧
    (flashMessage c).2.res.locals.message = c.req.session.message ∧
    ∀ rs : List HttpRequest,
      (runAll env authRouter (persist (flashMessage c).2) rs).session.message =
        c.req.session.message := by
  rw [run_flashMessage_truthy c h]
  refine ⟨rfl, rfl, fun rs => ?_⟩
  rw [runAll_blocked env authRouter _ rs (by simpa [persist] using h)]
  rfl

theorem flash_message_persists_witness :
    (flashMessage (sampleCtx .undefined (.str "Movie successfully created.") (.obj [])
      "")).2.req.session.message = .str "Movie successfully created." ∧
    (flashMessage (sampleCtx .undefined (.str "Movie successfully created.") (.obj [])
      "")).2.res.locals.message = .str "Movie successfully created." ∧
    (runAll sampleEnv passRouter
      (persist (flashMessage (sampleCtx .undefined (.str "Movie successfully created.")
        (.obj []) "")).2)
      [⟨.GET, ["movies"], .obj []⟩, ⟨.GET, [], .obj []⟩]).session.message =
        .str "Movie successfully created." :=
  ⟨(flash_message_persists sampleEnv passRouter
      (sampleCtx .undefined (.str "Movie successfully created.") (.obj []) "") rfl).1,
   (flash_message_persists sampleEnv passRouter
      (sampleCtx .undefined (.str "Movie successfully created.") (.obj []) "") rfl).2.1,
   (flash_message_persists sampleEnv passRouter
      (sampleCtx .undefined (.str "Movie successfully created.") (.obj []) "") rfl).2.2
      [⟨.GET, ["movies"], .obj []⟩, ⟨.GET, [], .obj []⟩]⟩

theorem truthy_str_append (a b : String) (h : a.data ≠ []) :
    (JsVal.str (a ++ b)).truthy = true := by
  have hne : a ++ b ≠ "" := by
    intro hc
    have hd := congrArg String.data hc
    simp at hd
    exact h hd.1
  simpa [JsVal.truthy] using hne

theorem create_error_message (d : Driver) (doc : JsVal) (w w1 : World) (e : JsError)
    (h : Movies.create d doc w = (.error e, w1)) : (JsVal.str e.message).truthy = true := by
  have hv : ∀ paths, (JsVal.str (validationError paths).message).truthy = true := fun paths =>
    truthy_str_append _ _ (by decide)
  have hins : ∀ id w2 w3, insertMovie d doc id w2 = (.error e, w3) →
      (JsVal.str e.message).truthy = true := by
    intro id w2 w3 hi
    unfold insertMovie at hi
    split at hi
    · simp only [Prod.mk.injEq, Except.error.injEq] at hi
      rw [← hi.1]; rfl
    · simp at hi
  unfold Movies.create at h
  split at h
  · simp only [Prod.mk.injEq, Except.error.injEq] at h; rw [← h.1]; rfl
  · simp only [Prod.mk.injEq, Except.error.injEq] at h; rw [← h.1]; rfl
  · simp only [Prod.mk.injEq, Except.error.injEq] at h; rw [← h.1]; rfl
  · simp only at h
    split at h
    · split at h
      · exact hins _ _ _ h
      · simp only [Prod.mk.injEq, Except.error.injEq] at h; rw [← h.1]; rfl
    · simp only [Prod.mk.injEq, Except.error.injEq] at h; rw [← h.1]; exact hv _

theorem postMovies_message_truthy (env : Env) (c : Ctx)
    (h : c.req.session.user.truthy = true) :
    (postMovies env c).2.req.session.message.truthy = true := by
  have hgp := getProp_of_truthy c.req.session.user "userId" h
  simp only [postMovies, writeBody, run_bind, Js.bind, run_getCtx, run_liftE, run_liftDb,
    h, if_true, hgp, run_tryCatch, Js.tryCatch, run_modifyCtx, run_setSessionMessage, redirect,
    run_reply]
  cases hs : c.req.body.setProp "createdBy" (fieldOf c.req.session.user "userId") with
  | error e =>
    have he : (JsVal.str e.message).truthy = true := by
      cases hb : c.req.body <;> rw [hb] at hs <;> simp [JsVal.setProp] at hs
      all_goals (rw [← hs]; exact truthy_str_append _ _ (by decide))
    simpa using he
  | ok body =>
    simp only []
    cases hcr : Movies.create env.driver body c.db with
    | mk res w1 =>
      cases res with
      | error e => simpa using create_error_message env.driver body c.db w1 e hcr
      | ok m => simp [JsVal.truthy]

/-- C10: when the session message is truthy, the flash-message middleware throws the
TypeError of the write to `req.sessions.message` without having called `next()`, and the
application answers the request from the error handler, whatever the route and the router
under `/auth`, leaving the session and the database as they were: no route handler runs.
When the session message is falsy, the middleware changes nothing and calls `next()` once.
After a `POST /movies` with a truthy session user, which stores a message, every later
request of the session is answered that way. -/
theorem flash_blocks_routes (env : Env) (authRouter : AuthRouter) :
    (∀ c : Ctx, c.req.session.message.truthy = true →
      (flashMessage c).1 = .error (writeTypeError "message") ∧
      (flashMessage c).2.nextCalls = c.nextCalls) ∧
    (∀ (s : AppState) (r : HttpRequest), s.session.message.truthy = true →
      app env authRouter s r = (.serverError (writeTypeError "message"), s)) ∧
    (∀ c : Ctx, c.req.session.message.truthy = false →
      flashMessage c = (.ok (), { c with nextCalls := c.nextCalls + 1 })) ∧
    (∀ (c : Ctx) (rs : List HttpRequest) (r : HttpRequest),
      c.req.session.user.truthy = true →
      app env authRouter (runAll env authRouter (persist (postMovies env c).2) rs) r =
        (.serverError (writeTypeError "message"), persist (postMovies env c).2)) := by
  refine ⟨fun c h => ?_, fun s r h => app_blocked env authRouter s r h,
    fun c h => run_flashMessage_falsy c h, fun c rs r h => ?_⟩
  · rw [run_flashMessage_truthy c h]
    exact ⟨rfl, rfl⟩
  · have hm : (persist (postMovies env c).2).session.message.truthy = true :=
      postMovies_message_truthy env c h
    rw [runAll_blocked env authRouter _ rs hm]
    exact app_blocked env authRouter _ r hm

theorem flash_blocks_routes_witness :
    ((flashMessage (sampleCtx .undefined (.str "Movie successfully created.") (.obj [])
        "")).1 = .error (writeTypeError "message") ∧
     (flashMessage (sampleCtx .undefined (.str "Movie successfully created.") (.obj [])
        "")).2.nextCalls = 0) ∧
    flashMessage (sampleCtx .undefined .undefined (.obj []) "") =
      (.ok (), { sampleCtx .undefined .undefined (.obj []) "" with nextCalls := 0 + 1 }) ∧
    app sampleEnv passRouter
      (runAll sampleEnv passRouter
        (persist (postMovies sampleEnv
          (sampleCtx (.obj [("userId", .str "bbbbbbbbbbbbbbbbbbbbbbbb")]) .undefined
            sampleBody "")).2)
        [⟨.GET, ["movies"], .obj []⟩])
      ⟨.GET, [], .obj []⟩ =
      (.serverError (writeTypeError "message"),
        persist (postMovies sampleEnv
          (sampleCtx (.obj [("userId", .str "bbbbbbbbbbbbbbbbbbbbbbbb")]) .undefined
            sampleBody "")).2) :=
  ⟨(flash_blocks_routes sampleEnv passRouter).1
      (sampleCtx .undefined (.str "Movie successfully created.") (.obj []) "") rfl,
   (flash_blocks_routes sampleEnv passRouter).2.2.1
      (sampleCtx .undefined .undefined (.obj []) "") rfl,
   (flash_blocks_routes sampleEnv passRouter).2.2.2
      (sampleCtx (.obj [("userId", .str "bbbbbbbbbbbbbbbbbbbbbbbb")]) .undefined sampleBody "")
      [⟨.GET, ["movies"], .obj []⟩] ⟨.GET, [], .obj []⟩ rfl⟩

/-! ## The session user -/

theorem keeps_pure {α β : Type} (g : Session → β) (a : α) : Keeps g (pure a : Js α) :=
  fun _ => rfl

theorem keeps_throw {α β : Type} (g : Session → β) (e : JsError) :
    Keeps g (throw e : Js α) := fun _ => rfl

theorem keeps_getCtx {β : Type} (g : Session → β) : Keeps g getCtx := fun _ => rfl

theorem keeps_liftE {α β : Type} (g : Session → β) (r : Except JsError α) :
    Keeps g (liftE r) := fun _ => rfl

theorem keeps_liftDb {α β : Type} (g : Session → β)
    (op : World → Except JsError α × World) : Keeps g (liftDb op) := fun _ => rfl

theorem keeps_redirect {β : Type} (g : Session → β) (url : String) : Keeps g (redirect url) :=
  fun _ => rfl

theorem keeps_send {β : Type} (g : Session → β) (v : JsVal) : Keeps g (send v) := fun _ => rfl

theorem keeps_render {β : Type} (g : Session → β) (view : String)
    (args : List (String × ViewArg)) : Keeps g (render view args) := fun _ => rfl

theorem keeps_setSessionMessage (x : JsVal) : Keeps Session.user (setSessionMessage x) :=
  fun _ => rfl

theorem keeps_bind {α β γ : Type} (g : Session → γ) (x : Js α) (f : α → Js β)
    (hx : Keeps g x) (hf : ∀ a, Keeps g (f a)) : Keeps g (x >>= f) := by
  intro c
  have h1 := hx c
  simp only [run_bind, Js.bind]
  cases hr : x c with
  | mk r c1 =>
    rw [hr] at h1
    cases r with
    | ok a => simpa [← h1] using hf a c1
    | error e => simpa using h1

theorem keeps_tryCatch {α γ : Type} (g : Session → γ) (x : Js α) (f : JsError → Js α)
    (hx : Keeps g x) (hf : ∀ e, Keeps g (f e)) : Keeps g (tryCatch x f) := by
  intro c
  have h1 := hx c
  simp only [run_tryCatch, Js.tryCatch]
  cases hr : x c with
  | mk r c1 =>
    rw [hr] at h1
    cases r with
    | ok a => simpa using h1
    | error e => simpa [← h1] using hf e c1

theorem keeps_ite {α γ : Type} (g : Session → γ) (p : Prop) [Decidable p] (x y : Js α)
    (hx : Keeps g x) (hy : Keeps g y) : Keeps g (if p then x else y) := by
  split
  · exact hx
  · exact hy

theorem keeps_readBody {β : Type} (g : Session → β) (k : String) : Keeps g (readBody k) :=
  keeps_bind g _ _ (keeps_getCtx g) fun _ => keeps_liftE g _

theorem keeps_writeBody {β : Type} (g : Session → β) (k : String) (x : JsVal) :
    Keeps g (writeBody k x) :=
  keeps_bind g _ _ (keeps_getCtx g) fun _ => keeps_bind g _ _ (keeps_liftE g _) fun _ _ => rfl

theorem keeps_resolve {α β : Type} (g : Session → β) (b : Option α) (x : String) :
    Keeps g (resolve b x) := by
  cases b
  · exact keeps_throw g _
  · exact keeps_pure g _

theorem keeps_postSignIn {β : Type} (g : Session → β) (env : Env) :
    Keeps g (postSignIn env) := by
  unfold postSignIn
  refine keeps_bind g _ _ (keeps_resolve g _ _) fun U => ?_
  refine keeps_bind g _ _ (keeps_readBody g _) fun _ => ?_
  refine keeps_bind g _ _ (keeps_liftDb g _) fun _ => ?_
  refine keeps_bind g _ _ (keeps_readBody g _) fun _ => ?_
  refine keeps_bind g _ _ (keeps_liftE g _) fun _ => ?_
  refine keeps_bind g _ _ (keeps_liftE g _) fun _ => ?_
  exact keeps_ite g _ _ _ (keeps_redirect g _) (keeps_send g _)

theorem keeps_postSignUp {β : Type} (g : Session → β) (env : Env) :
    Keeps g (postSignUp env) := by
  unfold postSignUp
  refine keeps_bind g _ _ (keeps_readBody g _) fun _ => ?_
  refine keeps_bind g _ _ (keeps_liftE g _) fun _ => ?_
  refine keeps_bind g _ _ (keeps_writeBody g _ _) fun _ => ?_
  refine keeps_bind g _ _ (keeps_resolve g _ _) fun U => ?_
  refine keeps_bind g _ _ (keeps_getCtx g) fun _ => ?_
  refine keeps_bind g _ _ (keeps_liftDb g _) fun _ => ?_
  exact keeps_redirect g _

theorem keeps_getMovies {β : Type} (g : Session → β) : Keeps g getMovies := by
  unfold getMovies
  refine keeps_tryCatch g _ _ ?_ fun _ => keeps_render g _ _
  exact keeps_bind g _ _ (keeps_liftDb g _) fun _ => keeps_render g _ _

theorem keeps_getMovie {β : Type} (g : Session → β) (env : Env) : Keeps g (getMovie env) := by
  unfold getMovie
  refine keeps_tryCatch g _ _ ?_ fun _ => keeps_render g _ _
  refine keeps_bind g _ _ (keeps_getCtx g) fun _ => ?_
  exact keeps_bind g _ _ (keeps_liftDb g _) fun _ => keeps_render g _ _

theorem keeps_postMovies (env : Env) : Keeps Session.user (postMovies env) := by
  unfold postMovies
  refine keeps_bind _ _ _ (keeps_getCtx _) fun _ => ?_
  refine keeps_ite _ _ _ _ ?_ (keeps_redirect _ _)
  refine keeps_tryCatch _ _ _ ?_ fun _ =>
    keeps_bind _ _ _ (keeps_setSessionMessage _) fun _ => keeps_redirect _ _
  refine keeps_bind _ _ _ (keeps_getCtx _) fun _ => ?_
  refine keeps_bind _ _ _ (keeps_liftE _ _) fun _ => ?_
  refine keeps_bind _ _ _ (keeps_writeBody _ _ _) fun _ => ?_
  refine keeps_bind _ _ _ (keeps_getCtx _) fun _ => ?_
  refine keeps_bind _ _ _ (keeps_liftDb _ _) fun _ => ?_
  exact keeps_bind _ _ _ (keeps_setSessionMessage _) fun _ => keeps_redirect _ _

theorem keeps_deleteMovie {β : Type} (g : Session → β) (env : Env) :
    Keeps g (deleteMovie env) := by
  unfold deleteMovie
  refine keeps_bind g _ _ (keeps_getCtx g) fun _ => ?_
  refine keeps_ite g _ _ _ ?_ (keeps_redirect g _)
  refine keeps_tryCatch g _ _ ?_ fun _ => keeps_render g _ _
  refine keeps_bind g _ _ (keeps_getCtx g) fun _ => ?_
  exact keeps_bind g _ _ (keeps_liftDb g _) fun _ => keeps_send g _

theorem keeps_putMovie {β : Type} (g : Session → β) (env : Env) : Keeps g (putMovie env) := by
  unfold putMovie
  refine keeps_bind g _ _ (keeps_getCtx g) fun _ => ?_
  refine keeps_ite g _ _ _ ?_ (keeps_redirect g _)
  refine keeps_tryCatch g _ _ ?_ fun _ => keeps_render g _ _
  refine keeps_bind g _ _ (keeps_getCtx g) fun _ => ?_
  exact keeps_bind g _ _ (keeps_liftDb g _) fun _ => keeps_send g _

theorem keeps_getReviews {β : Type} (g : Session → β) : Keeps g getReviews := by
  unfold getReviews
  exact keeps_bind g _ _ (keeps_getCtx g) fun _ => keeps_render g _ _

theorem keeps_postReviews {β : Type} (g : Session → β) (env : Env) :
    Keeps g (postReviews env) := by
  unfold postReviews
  refine keeps_bind g _ _ (keeps_getCtx g) fun _ => ?_
  refine keeps_ite g _ _ _ ?_ (keeps_redirect g _)
  refine keeps_bind g _ _ (keeps_getCtx g) fun _ => ?_
  refine keeps_bind g _ _ (keeps_liftDb g _) fun r => ?_
  refine keeps_bind g _ _ (keeps_getCtx g) fun _ => ?_
  refine keeps_bind g _ _ (keeps_liftE g _) fun _ => ?_
  refine keeps_bind g _ _ (keeps_writeBody g _ _) fun _ => ?_
  refine keeps_bind g _ _ (keeps_liftE g _) fun _ => ?_
  refine keeps_bind g _ _ (keeps_liftE g _) fun _ => ?_
  cases r with
  | none => exact keeps_bind g _ _ (keeps_throw g _) fun _ => keeps_redirect g _
  | some m =>
    exact keeps_bind g _ _ (keeps_liftDb g _) fun _ =>
      keeps_bind g _ _ (keeps_pure g _) fun _ => keeps_redirect g _

theorem route_keeps (env : Env) (r : HttpRequest) (id : String) (h : Js Unit)
    (hr : route env r = some (id, h)) : Keeps Session.user h := by
  unfold route at hr
  split at hr <;> simp only [Option.some.injEq, Prod.mk.injEq, reduceCtorEq] at hr <;>
    obtain ⟨-, rfl⟩ := hr
  · exact keeps_render _ _ _
  · exact keeps_render _ _ _
  · exact keeps_postSignUp _ _
  · exact keeps_render _ _ _
  · exact keeps_postSignIn _ _
  · exact keeps_getMovies _
  · exact keeps_render _ _ _
  · exact keeps_getMovie _ _
  · exact keeps_postMovies _
  · exact keeps_deleteMovie _ _
  · exact keeps_putMovie _ _
  · exact keeps_getReviews _
  · exact keeps_postReviews _ _

theorem route_keeps_session (env : Env) (r : HttpRequest) (id : String) (h : Js Unit)
    (hr : route env r = some (id, h)) (c : Ctx) (hu : c.req.session.user.truthy = false) :
    (h c).2.req.session = c.req.session := by
  unfold route at hr
  split at hr <;> simp only [Option.some.injEq, Prod.mk.injEq, reduceCtorEq] at hr <;>
    obtain ⟨-, rfl⟩ := hr
  · exact keeps_render (fun s : Session => s) _ _ c
  · exact keeps_render (fun s : Session => s) _ _ c
  · exact keeps_postSignUp (fun s : Session => s) _ c
  · exact keeps_render (fun s : Session => s) _ _ c
  · exact keeps_postSignIn (fun s : Session => s) _ c
  · exact keeps_getMovies (fun s : Session => s) c
  · exact keeps_render (fun s : Session => s) _ _ c
  · exact keeps_getMovie (fun s : Session => s) _ c
  · simp [postMovies, Js.bind, hu, redirect]
  · exact keeps_deleteMovie (fun s : Session => s) _ c
  · exact keeps_putMovie (fun s : Session => s) _ c
  · exact keeps_getReviews (fun s : Session => s) c
  · exact keeps_postReviews (fun s : Session => s) _ c

theorem conclude_state (out : Except JsError Unit × Ctx) : (conclude out).2 = persist out.2 := by
  unfold conclude
  split
  · rfl
  · split <;> rfl

theorem dispatch_keeps (env : Env) (r : HttpRequest) (c : Ctx) :
    (dispatch env r c).2.session.user = c.req.session.user := by
  unfold dispatch
  cases hr : route env r with
  | none => rfl
  | some p =>
    obtain ⟨id, h⟩ := p
    simp only [conclude_state]
    exact route_keeps env r id h hr _

theorem dispatch_keeps_session (env : Env) (r : HttpRequest) (c : Ctx)
    (hu : c.req.session.user.truthy = false) :
    (dispatch env r c).2.session = c.req.session := by
  unfold dispatch
  cases hr : route env r with
  | none => rfl
  | some p =>
    obtain ⟨id, h⟩ := p
    simp only [conclude_state]
    exact route_keeps_session env r id h hr _ hu

theorem app_keeps (env : Env) (authRouter : AuthRouter)
    (hauth : ∀ r c, (authRouter r c).2.req.session.user = c.req.session.user)
    (s : AppState) (r : HttpRequest) :
    (app env authRouter s r).2.session.user = s.session.user := by
  unfold app stage
  rw [run_exposeUser]
  simp only [startCtx, if_true]
  cases hm : s.session.message.truthy with
  | true => rw [run_flashMessage_truthy _ hm]; rfl
  | false =>
    rw [run_flashMessage_falsy _ hm]
    simp only [if_true]
    split
    · have ha := hauth r
        { req := { session := s.session, body := r.body, movieId := "" }
          res := { locals := { user := s.session.user, message := .undefined }, sent := [] }
          db := s.db
          nextCalls := 0 + 1 + 1 }
      split
      · next resp c3 hc3 =>
        rw [hc3] at ha
        exact ha
      · next c3 hc3 =>
        rw [dispatch_keeps]
        rw [hc3] at ha
        exact ha
    · rw [dispatch_keeps]

theorem app_keeps_session (env : Env) (authRouter : AuthRouter)
    (hauth : ∀ r c, (authRouter r c).2.req.session = c.req.session)
    (s : AppState) (r : HttpRequest) (hu : s.session.user.truthy = false) :
    (app env authRouter s r).2.session = s.session := by
  unfold app stage
  rw [run_exposeUser]
  simp only [startCtx, if_true]
  cases hm : s.session.message.truthy with
  | true => rw [run_flashMessage_truthy _ hm]; rfl
  | false =>
    rw [run_flashMessage_falsy _ hm]
    simp only [if_true]
    split
    · have ha := hauth r
        { req := { session := s.session, body := r.body, movieId := "" }
          res := { locals := { user := s.session.user, message := .undefined }, sent := [] }
          db := s.db
          nextCalls := 0 + 1 + 1 }
      split
      · next resp c3 hc3 =>
        rw [hc3] at ha
        exact ha
      · next c3 hc3 =>
        rw [hc3] at ha
        simp only at ha
        rw [dispatch_keeps_session env r c3 (by rw [ha]; exact hu)]
        exact ha
    · rw [dispatch_keeps_session env r _ hu]

theorem runAll_keeps (env : Env) (authRouter : AuthRouter)
    (hauth : ∀ r c, (authRouter r c).2.req.session.user = c.req.session.user)
    (s : AppState) (rs : List HttpRequest) :
    (runAll env authRouter s rs).session.user = s.session.user := by
  induction rs generalizing s with
  | nil => rfl
  | cons r rs ih => simp only [runAll]; rw [ih, app_keeps env authRouter hauth]

theorem runAll_keeps_session (env : Env) (authRouter : AuthRouter)
    (hauth : ∀ r c, (authRouter r c).2.req.session = c.req.session)
    (s : AppState) (rs : List HttpRequest) (hu : s.session.user.truthy = false) :
    (runAll env authRouter s rs).session = s.session := by
  induction rs generalizing s with
  | nil => rfl
  | cons r rs ih =>
    have h1 := app_keeps_session env authRouter hauth s r hu
    simp only [runAll]
    rw [ih _ (by rw [h1]; exact hu), h1]

theorem app_guarded (env : Env) (authRouter : AuthRouter) (s : AppState) (r : HttpRequest)
    (hu : s.session.user.truthy = false) (hm : s.session.message.truthy = false)
    (hg : guarded r = true) :
    (app env authRouter s r).1 = .reply (.redirect "/auth/sign-in") := by
  unfold app stage
  rw [run_exposeUser]
  simp only [startCtx, if_true]
  rw [run_flashMessage_falsy _ hm]
  simp only [if_true]
  obtain ⟨method, path, body⟩ := r
  unfold guarded at hg
  split at hg
  · next h1 h2 =>
    simp only at h1 h2
    subst h1 h2
    simp [dispatch, route, conclude, postMovies, Js.bind, hu, redirect]
  · next h1 h2 =>
    simp only at h1 h2
    subst h1 h2
    simp [dispatch, route, conclude, putMovie, Js.bind, hu, redirect]
  · next h1 h2 =>
    simp only at h1 h2
    subst h1 h2
    simp [dispatch, route, conclude, deleteMovie, Js.bind, hu, redirect]
  · next h1 h2 =>
    simp only at h1 h2
    subst h1 h2
    simp [dispatch, route, conclude, postReviews, Js.bind, hu, redirect]
  · simp at hg

/-- C9: `POST /auth/sign-in` leaves `req.session.user` as it was, whatever `User` is bound
to and whatever the comparison returns (rejection, match and mismatch alike). Over the
middleware and routes of `server.js`, with a router under `/auth` that does not assign the
session user either, the session user after any sequence of requests is the one the session
started with; so when the session starts without a truthy user, in every request of the
session the handlers of `POST /movies`, `PUT` and `DELETE /movies/:movieId` and
`POST /movies/:movieId/reviews` write exactly the redirect to `/auth/sign-in`. When the
session also starts without a message and the router leaves the session alone, the
application answers every request to these four routes with that redirect. -/
theorem session_user_never_assigned (env : Env) (authRouter : AuthRouter)
    (hauth : ∀ r c, (authRouter r c).2.req.session.user = c.req.session.user) :
    (∀ c : Ctx, (postSignIn env c).2.req.session.user = c.req.session.user) ∧
    (∀ (s : AppState) (rs : List HttpRequest),
      (runAll env authRouter s rs).session.user = s.session.user) ∧
    (∀ (s : AppState) (rs : List HttpRequest) (c : Ctx),
      s.session.user.truthy = false →
      c.req.session.user = (runAll env authRouter s rs).session.user →
      (postMovies env c).2.res.sent = c.res.sent ++ [.redirect "/auth/sign-in"] ∧
      (putMovie env c).2.res.sent = c.res.sent ++ [.redirect "/auth/sign-in"] ∧
      (deleteMovie env c).2.res.sent = c.res.sent ++ [.redirect "/auth/sign-in"] ∧
      (postReviews env c).2.res.sent = c.res.sent ++ [.redirect "/auth/sign-in"]) ∧
    (∀ (s : AppState) (rs : List HttpRequest) (r : HttpRequest),
      s.session.user.truthy = false → s.session.message.truthy = false →
      (∀ q c, (authRouter q c).2.req.session = c.req.session) →
      guarded r = true →
      (app env authRouter (runAll env authRouter s rs) r).1 =
        .reply (.redirect "/auth/sign-in")) := by
  refine ⟨keeps_postSignIn Session.user env, runAll_keeps env authRouter hauth,
    fun s rs c hs hc => ?_, fun s rs r hs hm hsess hg => ?_⟩
  · have hu : c.req.session.user.truthy = false := by
      rw [hc, runAll_keeps env authRouter hauth]; exact hs
    simp [postMovies, putMovie, deleteMovie, postReviews, Js.bind, hu, redirect]
  · have hk := runAll_keeps_session env authRouter hsess s rs hs
    exact app_guarded env authRouter _ r (by rw [hk]; exact hs) (by rw [hk]; exact hm) hg

theorem session_user_never_assigned_witness :
    (postSignIn sampleEnv (sampleCtx .undefined .undefined
      (.obj [("username", .str "ann"), ("password", .str "secret")]) "")).2.req.session.user
      = .undefined ∧
    (runAll sampleEnv passRouter sampleState
      [⟨.POST, ["auth", "sign-in"], .obj [("username", .str "ann"), ("password", .str "secret")]⟩,
       ⟨.POST, ["movies"], sampleBody⟩]).session.user = .undefined ∧
    (postMovies sampleEnv (sampleCtx .undefined .undefined sampleBody "")).2.res.sent =
      [] ++ [.redirect "/auth/sign-in"] ∧
    (app sampleEnv passRouter
      (runAll sampleEnv passRouter sampleState
        [⟨.POST, ["auth", "sign-in"],
          .obj [("username", .str "ann"), ("password", .str "secret")]⟩])
      ⟨.DELETE, ["movies", "0123456789abcdef01234567"], .obj []⟩).1 =
      .reply (.redirect "/auth/sign-in") :=
  ⟨(session_user_never_assigned sampleEnv passRouter (fun _ _ => rfl)).1
      (sampleCtx .undefined .undefined
        (.obj [("username", .str "ann"), ("password", .str "secret")]) ""),
   (session_user_never_assigned sampleEnv passRouter (fun _ _ => rfl)).2.1 sampleState
      [⟨.POST, ["auth", "sign-in"], .obj [("username", .str "ann"), ("password", .str "secret")]⟩,
       ⟨.POST, ["movies"], sampleBody⟩],
   ((session_user_never_assigned sampleEnv passRouter (fun _ _ => rfl)).2.2.1 sampleState
      [⟨.POST, ["auth", "sign-in"], .obj [("username", .str "ann"), ("password", .str "secret")]⟩]
      (sampleCtx .undefined .undefined sampleBody "") rfl
      ((session_user_never_assigned sampleEnv passRouter (fun _ _ => rfl)).2.1 sampleState
        [⟨.POST, ["auth", "sign-in"],
          .obj [("username", .str "ann"), ("password", .str "secret")]⟩]).symm).1,
   (session_user_never_assigned sampleEnv passRouter (fun _ _ => rfl)).2.2.2 sampleState
      [⟨.POST, ["auth", "sign-in"], .obj [("username", .str "ann"), ("password", .str "secret")]⟩]
      ⟨.DELETE, ["movies", "0123456789abcdef01234567"], .obj []⟩ rfl rfl (fun _ _ => rfl) rfl⟩

end FullStackLab
